import Mathlib

/-!
Shallow embedding of the XAP transaction engine found in
`lib/python/qmk/cli/xap/xap.py`, together with theorems settling the
specification claims about it.  Bytes are modelled as `Nat` values below 256,
byte strings as `List Nat`, Python exceptions as `Except PyError`, and the
`self.responses` correlation dictionary by its key set (`List Nat` of tokens,
string keys `str(token)` being in bijection with the two token bytes).
-/

/-- Python exceptions that the modelled code can raise. -/
inductive PyError where
  | overflowError
  | typeError
  | indexError
deriving DecidableEq, Repr

/-- Little-endian byte list of `n`, `len` bytes, mirroring the byte order of
`int.to_bytes(len, byteorder="little")`. -/
def toBytesLE : Nat → Nat → List Nat
  | _, 0 => []
  | n, len + 1 => n % 256 :: toBytesLE (n / 256) len

/-- Big-endian byte list, mirroring `int.to_bytes(len, byteorder="big")`. -/
def toBytesBE (n len : Nat) : List Nat := (toBytesLE n len).reverse

/-- Python `int.to_bytes(len, byteorder)`: raises `OverflowError` when the
integer does not fit in `len` bytes, otherwise yields the byte string. -/
def to_bytes_checked (n len : Nat) (big : Bool) : Except PyError (List Nat) :=
  if n < 256 ^ len then .ok (if big then toBytesBE n len else toBytesLE n len)
  else .error .overflowError

/-- Python `int.from_bytes(data, "little")`. -/
def int_from_bytes_le : List Nat → Nat
  | [] => 0
  | b :: rest => b + 256 * int_from_bytes_le rest

/-- The single optional argument of `XAPDevice.transaction`: the source
distinguishes a `bytes`/`bytearray` argument (used verbatim) from any other
argument, which it serializes with `.to_bytes(2, byteorder="little")`. -/
inductive XArg where
  | bytes (data : List Nat)
  | int (n : Nat)
deriving DecidableEq, Repr

/-- Lines 85-93 of the source: compute `args_len` and `args_data`.  With
exactly one argument, a byte-string argument contributes its own bytes and an
integer argument two little-endian bytes (raising `OverflowError` when it
exceeds 16 bits); with zero or several arguments `args_data` stays empty and
`args_len` stays 2. -/
def argsEncode (args : List XArg) : Except PyError (Nat × List Nat) :=
  match args with
  | [XArg.bytes d] => .ok (2 + d.length, d)
  | [XArg.int n] =>
    match to_bytes_checked n 2 false with
    | .error e => .error e
    | .ok b => .ok (2 + 2, b)
  | _ => .ok (2, [])

/-- Lines 80-103 of `XAPDevice.transaction`: build the request buffer.  The
token is rendered as 2 big-endian bytes, then `args_len`, `sub` and `route`
each as one byte; `padding_len = 64 - 3 - args_len` truncates at zero exactly
as the Python `b"\x00" * negative` yields the empty string; the argument bytes
are prepended to the padding only when non-empty (`if args_data:`); on Windows
a single zero report-ID byte is prepended.  No size check of any kind is
performed on the resulting buffer. -/
def buildRequest (win : Bool) (token sub route : Nat) (args : List XArg) :
    Except PyError (List Nat) :=
  match to_bytes_checked token 2 true with
  | .error e => .error e
  | .ok tokenBytes =>
    match argsEncode args with
    | .error e => .error e
    | .ok (argsLen, argsData) =>
      let paddingLen := 64 - 3 - argsLen
      let padding := List.replicate paddingLen 0
      let padding2 := if argsData.isEmpty then padding else argsData ++ padding
      match to_bytes_checked argsLen 1 false with
      | .error e => .error e
      | .ok argsLenByte =>
        match to_bytes_checked sub 1 false with
        | .error e => .error e
        | .ok subByte =>
          match to_bytes_checked route 1 false with
          | .error e => .error e
          | .ok routeByte =>
            let buffer := tokenBytes ++ argsLenByte ++ subByte ++ routeByte ++ padding2
            .ok (if win then 0 :: buffer else buffer)

/-- The only defined status flag, `XAPFlags.SUCCESS = 0x01`. -/
def XAPFlags.SUCCESS : Nat := 0x01

/-- Lines 111-119 of `XAPDevice.transaction`: classify the wait outcome.
`resp = none` models a timeout (`event._ret` never set): the method returns
`None`.  Otherwise the response frame is examined: a flags byte (index 2)
different from `SUCCESS` also returns `None`; a success frame yields the slice
`frame[4 : 4 + frame[3]]`, which Python silently truncates at the end of the
buffer.  Reading index 2 or 3 of a too-short frame raises `IndexError`. -/
def transactionOutcome (resp : Option (List Nat)) :
    Except PyError (Option (List Nat)) :=
  match resp with
  | none => .ok none
  | some frame =>
    if h2 : 2 < frame.length then
      if frame[2] ≠ XAPFlags.SUCCESS then .ok none
      else if h3 : 3 < frame.length then
        .ok (some ((frame.drop 4).take frame[3]))
      else .error .indexError
    else .error .indexError

/-- Line 81 of the source: `random.randrange(0x0100, 0xFFFE)`, which draws
uniformly from `[0x0100, 0xFFFD]`; the randomness is made explicit as `r`. -/
def randrangeToken (r : Nat) : Nat := 0x0100 + r % (0xFFFE - 0x0100)

/-- Key set of the `self.responses` dictionary after
`self.responses[str(token)] = event` (dictionary insertion). -/
def registerToken (t : Nat) (tbl : List Nat) : List Nat :=
  if t ∈ tbl then tbl else t :: tbl

/-- Key set of the `self.responses` dictionary after
`self.responses.pop(str(token), None)` (removal, no error when absent). -/
def popToken (t : Nat) (tbl : List Nat) : List Nat :=
  tbl.filter (fun k => k != t)

/-- Result of one `XAPDevice.transaction` call: the returned value (or raised
exception), the key set of `self.responses` when the call ends, and the list
of buffers written to the HID device during the call. -/
structure TransactionResult where
  outcome : Except PyError (Option (List Nat))
  table : List Nat
  written : List (List Nat)
deriving Repr

/-- Whole `XAPDevice.transaction` (lines 77-119): generate the token from the
randomness `r`, build the request buffer (any exception propagates before the
slot is registered), register the slot, write the buffer, wait for `resp`
(none = no response within the 1 s deadline), pop the slot unconditionally,
then classify the outcome. -/
def transaction (win : Bool) (tbl : List Nat) (r sub route : Nat)
    (args : List XArg) (resp : Option (List Nat)) : TransactionResult :=
  let token := randrangeToken r
  match buildRequest win token sub route args with
  | .error e => { outcome := .error e, table := tbl, written := [] }
  | .ok buffer =>
    let tbl1 := registerToken token tbl
    let tbl2 := popToken token tbl1
    { outcome := transactionOutcome resp, table := tbl2, written := [buffer] }

/-- The broadcast token registered by `XAPDevice.listen`, `b"\xFF\xFF"`. -/
def broadcastToken : Nat := 0xFFFF

/-- `XAPDevice.listen` (lines 67-75): register a slot under the broadcast
token, wait with no timeout until the reader signals it with `frame`, and
return `event._ret` — the full raw frame, never a slice of it.  The slot is
not removed.  Result: (returned value, key set of `self.responses`). -/
def listenRun (tbl : List Nat) (frame : List Nat) : List Nat × List Nat :=
  let tbl1 := registerToken broadcastToken tbl
  (frame, tbl1)

/-- The chunk loop of `XAPDevice._query_device_info` (lines 58-64):
`while offset < datalen: chunk = transaction(0x01, 0x06, offset);
data += chunk; offset += len(chunk)`.  `chunkResp offset` is the value the
chunk transaction returns at a given offset; when it is `None` the statement
`data += None` raises `TypeError`.  An empty successful chunk never advances
`offset`, so the Python loop diverges; the explicit `fuel` models this, with
`none` meaning the loop has not terminated within `fuel` iterations.  On
termination the assembled prefix `data[:datalen]` is produced (the subsequent
gzip/json decoding of those bytes is outside this model). -/
def queryChunkLoop (chunkResp : Nat → Option (List Nat)) (datalen : Nat) :
    Nat → Nat → List Nat → Option (Except PyError (List Nat))
  | 0, _, _ => none
  | fuel + 1, offset, data =>
    if offset < datalen then
      match chunkResp offset with
      | none => some (.error .typeError)
      | some chunk =>
        queryChunkLoop chunkResp datalen fuel (offset + chunk.length)
          (data ++ chunk)
    else some (.ok (data.take datalen))

/-- `XAPDevice._query_device_info` (lines 53-64), down to the assembled byte
string: `datalen = int.from_bytes(transaction(0x01, 0x05) or bytes(0),
"little")`; when zero, return immediately with no chunk request, otherwise run
the chunk loop. -/
def query_device_info_data (lenResp : Option (List Nat))
    (chunkResp : Nat → Option (List Nat)) (fuel : Nat) :
    Option (Except PyError (List Nat)) :=
  let datalen := int_from_bytes_le (lenResp.getD [])
  if datalen = 0 then some (.ok [])
  else queryChunkLoop chunkResp datalen fuel 0 []

/-- `_u32toBCD` (lines 20-23): the f-string
`f"{val>>24}.{val>>16 & 0xFF}.{val & 0xFFFF}"`. -/
def u32toBCD (val : Nat) : String :=
  toString (val >>> 24) ++ "." ++ toString ((val >>> 16) &&& 0xFF) ++ "." ++
    toString (val &&& 0xFFFF)

/-- The version string computed by `XAPDevice.version` (lines 121-124) from
the value its transaction returned: `None or bytes(0)` coerces a failure (and
an empty payload) to `b""`, which decodes to 0. -/
def version_string (resp : Option (List Nat)) : String :=
  u32toBCD (int_from_bytes_le (resp.getD []))

/-- One call of the `functools.cache`-memoized `XAPDevice.version`, modelled
over the cache state: a populated cache is returned as-is without issuing a
transaction; an empty cache runs the body on the transaction result `resp`
and stores the produced string.  Result: (returned string, new cache). -/
def version_call (cache : Option String) (resp : Option (List Nat)) :
    String × Option String :=
  match cache with
  | some v => (v, some v)
  | none => (version_string resp, some (version_string resp))

deriving instance DecidableEq for Except

/-- A response frame whose flags byte is 0 (device failure), payload empty. -/
def cFrameFlagsZero : List Nat := [1, 0, 0, 0] ++ List.replicate 60 0

/-- A success response frame carrying an empty payload. -/
def cFrameEmptyOk : List Nat := [1, 0, 1, 0] ++ List.replicate 60 0

/-- A success response frame whose declared payload length (61) exceeds the
60 bytes that remain after the 4 header bytes of the 64-byte report. -/
def cFrameOverdeclared : List Nat := [1, 0, 1, 61] ++ List.replicate 60 7

/-- A broadcast report: token FF FF, type byte 1, length byte 2, payload 9 9. -/
def cBroadcastFrame : List Nat := [0xFF, 0xFF, 1, 2, 9, 9] ++ List.replicate 58 0

lemma randrangeToken_lt (r : Nat) : randrangeToken r < 0x10000 := by
  unfold randrangeToken
  have h := Nat.mod_lt r (show 0 < 0xFFFE - 0x0100 by decide)
  omega

lemma toBytesLE_length : ∀ (n len : Nat), (toBytesLE n len).length = len
  | _, 0 => rfl
  | n, len + 1 => by simp [toBytesLE, toBytesLE_length (n / 256) len]

lemma if_isEmpty_append (l p : List Nat) :
    (if l.isEmpty then p else l ++ p) = l ++ p := by
  cases l <;> simp

lemma getD_eq_getElem_of_lt (l : List Nat) (i : Nat) (h : i < l.length) :
    l.getD i 0 = l[i] := by
  simp [List.getD_eq_getElem?_getD, List.getElem?_eq_getElem h]

/-- C10: every token generated by `transact` lies in `[0x0100, 0xFFFD]`;
in particular the reserved values 0x0000 and 0xFFFF, every value with a zero
high byte (0x0001-0x00FF) and 0xFFFE are never generated. -/
theorem token_range (r : Nat) :
    0x0100 ≤ randrangeToken r ∧ randrangeToken r ≤ 0xFFFD := by
  unfold randrangeToken
  have h := Nat.mod_lt r (show 0 < 0xFFFE - 0x0100 by decide)
  omega

/-- C2: whenever the request buffer is built without an exception (the three
spec exit paths — payload, device error, timeout — all lie in this case),
the pending slot of the generated token is removed from the correlation
table before `transaction` returns: the final key set never holds it. -/
theorem transaction_removes_slot (win : Bool) (tbl : List Nat)
    (r sub route : Nat) (args : List XArg) (resp : Option (List Nat))
    (buf : List Nat)
    (hok : buildRequest win (randrangeToken r) sub route args = .ok buf) :
    randrangeToken r ∉ (transaction win tbl r sub route args resp).table := by
  simp [transaction, hok, popToken, List.mem_filter]

/-- Witness for C2 at windows-free platform, token randomness 0 (token
0x0100), no argument, a table that already held the token, timeout. -/
theorem transaction_removes_slot_witness :
    buildRequest false (randrangeToken 0) 0 0 [] =
      .ok ([1, 0, 2, 0, 0] ++ List.replicate 59 0)
    ∧ randrangeToken 0 ∉ (transaction false [256] 0 0 0 [] none).table :=
  ⟨by decide,
    transaction_removes_slot false [256] 0 0 0 [] none
      ([1, 0, 2, 0, 0] ++ List.replicate 59 0) (by decide)⟩

/-- C9 counterexample: `listen` returns the full 64-byte raw frame, which
differs from the payload slice `frame[4 : 4 + frame[3]]` the claim says it
returns. -/
theorem listen_returns_raw_frame_cex :
    (listenRun [] cBroadcastFrame).1 = cBroadcastFrame
    ∧ (listenRun [] cBroadcastFrame).1 ≠
        (cBroadcastFrame.drop 4).take (cBroadcastFrame.getD 3 0) := by
  decide

/-- C9 amended: `listen` registers a pending slot under the fixed broadcast
token 0xFFFF and, once the slot is signaled with a broadcast frame, returns
that full raw frame (token and header bytes included), not a payload slice. -/
theorem listen_registers_and_returns_frame (tbl frame : List Nat) :
    broadcastToken ∈ (listenRun tbl frame).2
    ∧ (listenRun tbl frame).1 = frame := by
  refine ⟨?_, rfl⟩
  by_cases h : broadcastToken ∈ tbl <;> simp [listenRun, registerToken, h]

/-- C1 counterexample: a timeout and a device-error response produce the very
same return value `None`; the two failure outcomes are not distinguishable. -/
theorem transaction_failure_collapse_cex :
    transactionOutcome (some cFrameFlagsZero) = transactionOutcome none
    ∧ transactionOutcome none = .ok none := by decide

/-- C1 amended: on a 64-byte response frame, `transact` collapses both
failures (timeout and non-SUCCESS flags) to the same `None`, while a SUCCESS
frame returns the payload slice, a value different from `None` even when the
payload is empty. -/
theorem transaction_outcome_classification (frame : List Nat)
    (hlen : frame.length = 64) :
    (frame.getD 2 0 ≠ XAPFlags.SUCCESS →
      transactionOutcome (some frame) = transactionOutcome none)
    ∧ (frame.getD 2 0 = XAPFlags.SUCCESS →
        transactionOutcome (some frame) =
          .ok (some ((frame.drop 4).take (frame.getD 3 0)))
        ∧ transactionOutcome (some frame) ≠ transactionOutcome none) := by
  have h2 : 2 < frame.length := by omega
  have h3 : 3 < frame.length := by omega
  have e2 := getD_eq_getElem_of_lt frame 2 h2
  have e3 := getD_eq_getElem_of_lt frame 3 h3
  constructor
  · intro hne
    rw [e2] at hne
    simp [transactionOutcome, h2, hne]
  · intro heq
    rw [e2] at heq
    constructor
    · simp [transactionOutcome, h2, h3, heq, e3]
    · simp [transactionOutcome, h2, h3, heq]

/-- Witness for C1 amended at a success frame with an empty payload. -/
theorem transaction_outcome_classification_witness :
    cFrameEmptyOk.length = 64
    ∧ ((cFrameEmptyOk.getD 2 0 ≠ XAPFlags.SUCCESS →
          transactionOutcome (some cFrameEmptyOk) = transactionOutcome none)
        ∧ (cFrameEmptyOk.getD 2 0 = XAPFlags.SUCCESS →
            transactionOutcome (some cFrameEmptyOk) =
              .ok (some ((cFrameEmptyOk.drop 4).take (cFrameEmptyOk.getD 3 0)))
            ∧ transactionOutcome (some cFrameEmptyOk) ≠
                transactionOutcome none)) :=
  ⟨by decide, transaction_outcome_classification cFrameEmptyOk (by decide)⟩

/-- C4 counterexample: a 64-byte success frame declaring a 61-byte payload —
more than the 60 bytes that remain — is decoded without any failure; the
slice is silently truncated to 60 bytes. -/
theorem overdeclared_payload_truncated_cex :
    transactionOutcome (some cFrameOverdeclared) =
      .ok (some (List.replicate 60 7))
    ∧ cFrameOverdeclared.getD 3 0 = 61
    ∧ cFrameOverdeclared.length = 64
    ∧ (List.replicate (60 : Nat) (7 : Nat)).length = 60 := by decide

/-- C4 amended: decoding a 64-byte success frame never fails, whatever the
declared payload-length byte says: the returned payload is the slice
truncated at the end of the report, of length `min declared 60`. -/
theorem response_payload_truncation (frame : List Nat)
    (hlen : frame.length = 64)
    (hfl : frame.getD 2 0 = XAPFlags.SUCCESS) :
    transactionOutcome (some frame) =
      .ok (some ((frame.drop 4).take (frame.getD 3 0)))
    ∧ ((frame.drop 4).take (frame.getD 3 0)).length =
        min (frame.getD 3 0) 60 := by
  have h2 : 2 < frame.length := by omega
  have h3 : 3 < frame.length := by omega
  have e2 := getD_eq_getElem_of_lt frame 2 h2
  have e3 := getD_eq_getElem_of_lt frame 3 h3
  rw [e2] at hfl
  constructor
  · simp [transactionOutcome, h2, h3, hfl, e3]
  · simp [List.length_take, List.length_drop, hlen]

/-- Witness for C4 amended at the over-declaring frame. -/
theorem response_payload_truncation_witness :
    cFrameOverdeclared.length = 64
    ∧ cFrameOverdeclared.getD 2 0 = XAPFlags.SUCCESS
    ∧ (transactionOutcome (some cFrameOverdeclared) =
        .ok (some ((cFrameOverdeclared.drop 4).take (cFrameOverdeclared.getD 3 0)))
      ∧ ((cFrameOverdeclared.drop 4).take (cFrameOverdeclared.getD 3 0)).length =
          min (cFrameOverdeclared.getD 3 0) 60) :=
  ⟨by decide, by decide,
    response_payload_truncation cFrameOverdeclared (by decide) (by decide)⟩

/-- C6: for a 32-bit value, the rendered version string is the dotted
concatenation of bits 31-24, bits 23-16 and bits 15-0, and the two reference
inputs render as the spec states. -/
theorem version_bcd_rendering (v : Nat) (hv : v < 2 ^ 32) :
    u32toBCD v =
      toString (v / 2 ^ 24 % 2 ^ 8) ++ "." ++ toString (v / 2 ^ 16 % 2 ^ 8) ++
        "." ++ toString (v % 2 ^ 16)
    ∧ u32toBCD 0x01020003 = "1.2.3" ∧ u32toBCD 0 = "0.0.0" := by
  refine ⟨?_, by decide, by decide⟩
  have h24 : v >>> 24 = v / 2 ^ 24 := Nat.shiftRight_eq_div_pow v 24
  have h16 : v >>> 16 = v / 2 ^ 16 := Nat.shiftRight_eq_div_pow v 16
  have hlt : v / 2 ^ 24 < 2 ^ 8 := by
    rw [Nat.div_lt_iff_lt_mul (by norm_num)]
    calc v < 2 ^ 32 := hv
    _ = 2 ^ 8 * 2 ^ 24 := by norm_num
  have hand : (v >>> 16) &&& 0xFF = v / 2 ^ 16 % 2 ^ 8 := by
    rw [h16]
    have h := Nat.and_pow_two_sub_one_eq_mod (v / 2 ^ 16) 8
    norm_num at h ⊢
    exact h
  have hand2 : v &&& 0xFFFF = v % 2 ^ 16 := by
    have h := Nat.and_pow_two_sub_one_eq_mod v 16
    norm_num at h ⊢
    exact h
  unfold u32toBCD
  rw [h24, hand, hand2, Nat.mod_eq_of_lt hlt]

/-- Witness for C6 at the reference input 0x01020003. -/
theorem version_bcd_rendering_witness :
    0x01020003 < 2 ^ 32
    ∧ (u32toBCD 0x01020003 =
        toString (0x01020003 / 2 ^ 24 % 2 ^ 8) ++ "." ++
          toString (0x01020003 / 2 ^ 16 % 2 ^ 8) ++ "." ++
          toString (0x01020003 % 2 ^ 16)
      ∧ u32toBCD 0x01020003 = "1.2.3" ∧ u32toBCD 0 = "0.0.0") :=
  ⟨by norm_num, version_bcd_rendering 0x01020003 (by norm_num)⟩

/-- C8 counterexample: a first `version` call whose transaction failed caches
and returns "0.0.0", the very string a device genuinely at version 0.0.0
produces; after the device would answer 1.2.3, the memoized call still
returns the cached "0.0.0". -/
theorem failed_version_cached_cex :
    (version_call none none).1 = "0.0.0"
    ∧ (version_call none none).1 = (version_call none (some [0, 0, 0, 0])).1
    ∧ (version_call (version_call none none).2 (some [3, 0, 2, 1])).1 = "0.0.0"
    ∧ version_string (some [3, 0, 2, 1]) = "1.2.3" := by decide

/-- C8 amended: when the underlying transaction of the first `version` call
fails, the `None` result is coerced to the successful-looking string "0.0.0",
which is cached; every later call returns that cached "0.0.0" whatever the
device would answer, so the failure is never reported. -/
theorem failed_version_caches_zero (resp2 : Option (List Nat)) :
    (version_call none none).1 = "0.0.0"
    ∧ (version_call none none).2 = some "0.0.0"
    ∧ (version_call (version_call none none).2 resp2).1 = "0.0.0" := by
  refine ⟨by decide, by decide, ?_⟩
  have h : (version_call none none).2 = some "0.0.0" := by decide
  rw [h]
  rfl

/-- C7 counterexample: a chunked fetch of a 5-byte blob whose chunk
transaction times out aborts with the `TypeError` raised by `data += None`,
not with any typed `IncompleteTransfer` outcome. -/
theorem chunk_failure_type_error_cex :
    query_device_info_data (some [5]) (fun _ => none) 10 =
      some (.error .typeError) := by decide

/-- C7 amended: whenever the accumulated data has not yet reached the
declared total length and the chunk transaction at the current offset fails
(timeout or device error, both `None`), the chunk loop immediately raises
`TypeError` from `data += None`; the failing chunk is never retried. -/
theorem chunk_failure_aborts (chunkResp : Nat → Option (List Nat))
    (datalen offset fuel : Nat) (data : List Nat)
    (hoff : offset < datalen) (hfail : chunkResp offset = none) :
    queryChunkLoop chunkResp datalen (fuel + 1) offset data =
      some (.error .typeError) := by
  simp [queryChunkLoop, hoff, hfail]

/-- Witness for C7 amended: first chunk of a 5-byte transfer times out. -/
theorem chunk_failure_aborts_witness :
    (0 < 5 ∧ (fun _ : Nat => (none : Option (List Nat))) 0 = none)
    ∧ queryChunkLoop (fun _ => none) 5 1 0 [] = some (.error .typeError) :=
  ⟨⟨by decide, rfl⟩, chunk_failure_aborts (fun _ => none) 5 0 0 [] (by decide) rfl⟩

lemma toBytesBE_two (token : Nat) (htok : token < 0x10000) :
    toBytesBE token 2 = [token / 0x100, token % 0x100] := by
  have hdiv : token / 256 < 256 := by
    rw [Nat.div_lt_iff_lt_mul (by norm_num)]
    omega
  simp [toBytesBE, toBytesLE, Nat.mod_eq_of_lt hdiv]

lemma buildRequest_bytes_eq (win : Bool) (token sub route : Nat) (d : List Nat)
    (htok : token < 0x10000) (hlen2 : 2 + d.length < 0x100)
    (hsub : sub < 0x100) (hroute : route < 0x100) :
    buildRequest win token sub route [XArg.bytes d] =
      .ok ((if win then [0] else []) ++
        [token / 0x100, token % 0x100, 2 + d.length, sub, route] ++ d ++
        List.replicate (59 - d.length) 0) := by
  have h1 : token < 256 ^ 2 := by norm_num at htok ⊢; omega
  have h2 : 2 + d.length < 256 ^ 1 := by norm_num at hlen2 ⊢; omega
  have h3 : sub < 256 ^ 1 := by norm_num at hsub ⊢; omega
  have h4 : route < 256 ^ 1 := by norm_num at hroute ⊢; omega
  have hp : 64 - 3 - (2 + d.length) = 59 - d.length := by omega
  simp only [buildRequest, argsEncode, to_bytes_checked, h1, h2, h3, h4,
    if_true, toBytesBE_two token htok, if_isEmpty_append, hp, toBytesLE]
  cases win <;> simp <;> omega

lemma buildRequest_int_eq (win : Bool) (token sub route n : Nat)
    (htok : token < 0x10000) (hn : n < 0x10000)
    (hsub : sub < 0x100) (hroute : route < 0x100) :
    buildRequest win token sub route [XArg.int n] =
      .ok ((if win then [0] else []) ++
        [token / 0x100, token % 0x100, 4, sub, route,
          n % 0x100, n / 0x100 % 0x100] ++
        List.replicate 57 0) := by
  have h1 : token < 256 ^ 2 := by norm_num at htok ⊢; omega
  have h2 : n < 256 ^ 2 := by norm_num at hn ⊢; omega
  have h3 : sub < 256 ^ 1 := by norm_num at hsub ⊢; omega
  have h4 : route < 256 ^ 1 := by norm_num at hroute ⊢; omega
  have h5 : 2 + 2 < 256 ^ 1 := by norm_num
  simp only [buildRequest, argsEncode, to_bytes_checked, h1, h2, h3, h4, h5,
    if_true, toBytesBE_two token htok, toBytesLE]
  cases win <;> simp <;> omega

/-- C5: for a transaction with one argument that fits the report — an integer
argument encoding as 2 little-endian bytes, a byte-string argument used
verbatim — the request frame is exactly 64 bytes: 2-byte big-endian token,
argument-length byte equal to 2 plus the encoded argument length, subsystem
byte, route byte, the argument bytes, zero padding; on Windows exactly one
zero report-ID byte is prepended, giving 65 bytes. -/
theorem request_frame_layout (win : Bool) (token sub route n : Nat)
    (d : List Nat) (htok : token < 0x10000) (hsub : sub < 0x100)
    (hroute : route < 0x100) (hd : d.length ≤ 59) (hn : n < 0x10000) :
    buildRequest win token sub route [XArg.bytes d] =
      .ok ((if win then [0] else []) ++
        [token / 0x100, token % 0x100, 2 + d.length, sub, route] ++ d ++
        List.replicate (59 - d.length) 0)
    ∧ ((if win then ([0] : List Nat) else []) ++
        [token / 0x100, token % 0x100, 2 + d.length, sub, route] ++ d ++
        List.replicate (59 - d.length) 0).length = (if win then 65 else 64)
    ∧ buildRequest win token sub route [XArg.int n] =
      .ok ((if win then [0] else []) ++
        [token / 0x100, token % 0x100, 4, sub, route,
          n % 0x100, n / 0x100 % 0x100] ++
        List.replicate 57 0) := by
  have hlen2 : 2 + d.length < 0x100 := by omega
  refine ⟨buildRequest_bytes_eq win token sub route d htok hlen2 hsub hroute,
    ?_, buildRequest_int_eq win token sub route n htok hn hsub hroute⟩
  cases win <;> simp <;> omega

/-- Witness for C5 on Windows with token 0x1234, byte argument AB, integer
argument 0x0102. -/
theorem request_frame_layout_witness :
    ((0x1234 : Nat) < 0x10000 ∧ (1 : Nat) < 0x100 ∧ (5 : Nat) < 0x100
      ∧ ([(0xAB : Nat)] : List Nat).length ≤ 59 ∧ (0x0102 : Nat) < 0x10000)
    ∧ (buildRequest true 0x1234 1 5 [XArg.bytes [0xAB]] =
        .ok ((if true then [0] else []) ++
          [0x1234 / 0x100, 0x1234 % 0x100, 2 + ([(0xAB : Nat)] : List Nat).length, 1, 5] ++
          [0xAB] ++ List.replicate (59 - ([(0xAB : Nat)] : List Nat).length) 0)
      ∧ ((if true then ([0] : List Nat) else []) ++
          [0x1234 / 0x100, 0x1234 % 0x100, 2 + ([(0xAB : Nat)] : List Nat).length, 1, 5] ++
          [0xAB] ++ List.replicate (59 - ([(0xAB : Nat)] : List Nat).length) 0).length =
          (if true then 65 else 64)
      ∧ buildRequest true 0x1234 1 5 [XArg.int 0x0102] =
        .ok ((if true then [0] else []) ++
          [0x1234 / 0x100, 0x1234 % 0x100, 4, 1, 5,
            0x0102 % 0x100, 0x0102 / 0x100 % 0x100] ++
          List.replicate 57 0)) :=
  ⟨⟨by decide, by decide, by decide, by decide, by decide⟩,
    request_frame_layout true 0x1234 1 5 0x0102 [0xAB]
      (by decide) (by decide) (by decide) (by decide) (by decide)⟩

/-- C3 counterexample: a 60-byte argument (one past the 59 bytes of room)
does not make encoding fail — the built 65-byte frame is written to the
transport by the transaction. -/
theorem oversize_request_written_cex :
    buildRequest false 0x0100 1 5 [XArg.bytes (List.replicate 60 7)] =
      .ok ([1, 0, 62, 1, 5] ++ List.replicate 60 7)
    ∧ ([(1 : Nat), 0, 62, 1, 5] ++ List.replicate 60 7).length = 65
    ∧ (transaction false [] 0 1 5 [XArg.bytes (List.replicate 60 7)]
        none).written = [[1, 0, 62, 1, 5] ++ List.replicate 60 7] := by
  refine ⟨by decide, by decide, by decide⟩

/-- C3 amended: the code performs no size check at all.  A byte argument of
60 to 253 bytes encodes without any error into a frame of 5 + length bytes
(more than one 64-byte report, the padding having shrunk to nothing), and
that oversized frame is written to the transport.  Only at 254 bytes and
beyond does `args_len.to_bytes(1, ...)` raise `OverflowError` — there is no
`FrameTooLarge` outcome anywhere. -/
theorem oversize_request_no_failure (win : Bool) (tbl : List Nat)
    (r sub route : Nat) (d : List Nat) (resp : Option (List Nat))
    (hsub : sub < 0x100) (hroute : route < 0x100)
    (hbig : 59 < d.length) (hsmall : d.length ≤ 253) :
    ∃ buf, buildRequest win (randrangeToken r) sub route [XArg.bytes d] =
        .ok buf
      ∧ 64 < buf.length
      ∧ buf.length = (if win then 1 else 0) + 5 + d.length
      ∧ (transaction win tbl r sub route [XArg.bytes d] resp).written =
          [buf] := by
  have htok := randrangeToken_lt r
  have hlen2 : 2 + d.length < 0x100 := by omega
  have heq := buildRequest_bytes_eq win (randrangeToken r) sub route d htok
    hlen2 hsub hroute
  have hrep : 59 - d.length = 0 := by omega
  rw [hrep] at heq
  refine ⟨_, heq, ?_, ?_, ?_⟩
  · cases win <;> simp <;> omega
  · cases win <;> simp <;> omega
  · simp [transaction, heq]

/-- Witness for C3 amended: 60-byte argument, subsystem 1, route 5. -/
theorem oversize_request_no_failure_witness :
    ((1 : Nat) < 0x100 ∧ (5 : Nat) < 0x100
      ∧ 59 < (List.replicate (60 : Nat) (7 : Nat)).length
      ∧ (List.replicate (60 : Nat) (7 : Nat)).length ≤ 253)
    ∧ ∃ buf, buildRequest false (randrangeToken 0) 1 5
          [XArg.bytes (List.replicate 60 7)] = .ok buf
        ∧ 64 < buf.length
        ∧ buf.length = (if false then 1 else 0) + 5 +
            (List.replicate (60 : Nat) (7 : Nat)).length
        ∧ (transaction false [] 0 1 5 [XArg.bytes (List.replicate 60 7)]
            none).written = [buf] :=
  ⟨⟨by decide, by decide, by decide, by decide⟩,
    oversize_request_no_failure false [] 0 1 5 (List.replicate 60 7) none
      (by decide) (by decide) (by decide) (by decide)⟩
